import Mathlib

/-!
Shallow embedding of the asset_registry repository (src/asset.rs, src/entity.rs,
src/registry.rs). External collaborators of the code (the sha256 primitive, the
elements entropy and asset-id derivation, hex display of asset ids, the pubkey
and domain-name syntax checkers living in the missing util.rs, the HTTP client,
the hook subprocess and the serde record serializer) are modelled as components
of an explicit environment record, so every verifier below is a pure function of
the record and that environment.
-/

namespace AssetRegistry

/-- JSON values, mirroring serde_json Value. Objects carry their entries as an
association list in original insertion order; serde_json itself stores objects
in a BTreeMap, which is modelled below by sorting the entries at
canonicalization time. Numbers are modelled as integers, which covers every
number the code inspects. -/
inductive Json where
  | null
  | bool (b : Bool)
  | num (n : Int)
  | str (s : String)
  | arr (elems : List Json)
  | obj (entries : List (String × Json))

/-- Ordering of object entries by key, used for the canonical (BTreeMap) entry
order of serde_json objects. -/
def keyLe (a b : String × Json) : Prop := a.1 ≤ b.1

instance : DecidableRel keyLe := fun a b => inferInstanceAs (Decidable (a.1 ≤ b.1))

instance : IsTotal (String × Json) keyLe := ⟨fun a b => le_total a.1 b.1⟩

instance : IsTrans (String × Json) keyLe := ⟨fun _ _ _ h1 h2 => le_trans h1 h2⟩

/-- Strict ordering of object entries by key. -/
def keyLt (a b : String × Json) : Prop := a.1 < b.1

instance : IsAntisymm (String × Json) keyLt :=
  ⟨fun _ _ h1 h2 => absurd h2 (lt_asymm h1)⟩

/-- Sort object entries lexicographically by key, the iteration order of the
BTreeMap that serde_json stores objects in. -/
def sortEntries (l : List (String × Json)) : List (String × Json) :=
  l.insertionSort keyLe

mutual

/-- Canonical form of a JSON value: every object has its entries sorted by key,
recursively. A serde_json Value is always in this form, because objects are
kept as BTreeMaps from the moment they are built. -/
def normJson : Json → Json
  | .null => .null
  | .bool b => .bool b
  | .num n => .num n
  | .str s => .str s
  | .arr xs => .arr (normList xs)
  | .obj l => .obj (sortEntries (normEntries l))

def normList : List Json → List Json
  | [] => []
  | x :: xs => normJson x :: normList xs

def normEntries : List (String × Json) → List (String × Json)
  | [] => []
  | (k, v) :: rest => (k, normJson v) :: normEntries rest

end

/-- Rendering of a JSON string literal. String escaping is elided: it does not
affect any claim, every theorem below treats the rendered text opaquely. -/
def renderString (s : String) : String := "\"" ++ s ++ "\""

mutual

/-- Compact serialization of a JSON value in entry order, mirroring
serde_json to_string applied to a Value whose objects are already in BTreeMap
(sorted) order. -/
def renderJson : Json → String
  | .null => "null"
  | .bool b => if b then "true" else "false"
  | .num n => toString n
  | .str s => renderString s
  | .arr xs => "[" ++ renderList xs ++ "]"
  | .obj l => "\x7b" ++ renderEntries l ++ "\x7d"

def renderList : List Json → String
  | [] => ""
  | [x] => renderJson x
  | x :: y :: rest => renderJson x ++ "," ++ renderList (y :: rest)

def renderEntries : List (String × Json) → String
  | [] => ""
  | [(k, v)] => renderString k ++ ":" ++ renderJson v
  | (k, v) :: e :: rest =>
    renderString k ++ ":" ++ renderJson v ++ "," ++ renderEntries (e :: rest)

end

/-- Model of serde_json to_string on a Value: objects serialize with their keys
in lexicographic order (the comment at src/asset.rs line 157 relies on exactly
this). -/
def jsonToString (j : Json) : String := renderJson (normJson j)

/-- Lowercase hex digit for a value below 16. -/
def hexDigitChar (n : Nat) : Char :=
  if n < 10 then Char.ofNat (48 + n) else Char.ofNat (87 + n)

def hexByteStr (b : Nat) : String :=
  String.mk [hexDigitChar (b / 16 % 16), hexDigitChar (b % 16)]

def hexEncode (bs : List Nat) : String := String.join (bs.map hexByteStr)

def hexDigitVal (c : Char) : Option Nat :=
  if 48 ≤ c.toNat ∧ c.toNat ≤ 57 then some (c.toNat - 48)
  else if 97 ≤ c.toNat ∧ c.toNat ≤ 102 then some (c.toNat - 87)
  else if 65 ≤ c.toNat ∧ c.toNat ≤ 70 then some (c.toNat - 55)
  else none

def hexDecodeChars : List Char → Option (List Nat)
  | [] => some []
  | [_] => none
  | c1 :: c2 :: rest =>
    match hexDigitVal c1, hexDigitVal c2, hexDecodeChars rest with
    | some hi, some lo, some bs => some ((16 * hi + lo) :: bs)
    | _, _, _ => none

/-- Model of hex decode as used for issuer_pubkey. -/
def hexDecode (s : String) : Option (List Nat) := hexDecodeChars s.data

/-- The elements ContractHash newtype: 32 raw hash bytes whose hex display is
byte reversed. -/
structure ContractHash where
  inner : List Nat
deriving DecidableEq

/-- Hex display of a ContractHash: the inner bytes are shown reversed, the
content-id convention of the host chain. -/
def ContractHash.to_hex (h : ContractHash) : String := hexEncode h.inner.reverse

/-- Whitespace characters removed by trim_end. -/
def isWsChar (c : Char) : Bool := c = ' ' || c = '\t' || c = '\n' || c = '\r'

/-- Model of str trim_end: drop trailing whitespace. -/
def trimEnd (s : String) : String :=
  String.mk ((s.data.reverse.dropWhile isWsChar).reverse)

def strTake (s : String) (n : Nat) : String := String.mk (s.data.take n)

def strEndsWith (s pat : String) : Bool := pat.data.isSuffixOf s.data

/-- An outpoint reference (txid, vout) to the issuance prevout. Only passed
through to the entropy derivation, so the components are abstract numbers. -/
structure OutPoint where
  txid : Nat
  vout : Nat
deriving DecidableEq

/-- A transaction input reference, from util.rs (not under src); only carried,
never inspected, by the code under verification. -/
structure TxInput where
  txid : Nat
  vin : Nat
deriving DecidableEq

/-- The entity enum of src/entity.rs: a single DomainName variant, serialized
under the external tag named domain. -/
inductive AssetEntity where
  | DomainName (domain : String)
deriving DecidableEq

/-- Issuer-supplied fields, src/asset.rs lines 40 to 50. precision is a u8
(hence a Nat below 256 wherever it originates from deserialization). -/
structure AssetFields where
  name : String
  ticker : Option String
  precision : Nat
  entity : AssetEntity
deriving DecidableEq

def default_precision : Nat := 0

/-- The asset record, src/asset.rs lines 24 to 37. The asset id is an abstract
identifier (its 32 bytes never inspected structurally by this code). -/
structure Asset where
  asset_id : Nat
  contract : Json
  issuance_txin : TxInput
  issuance_prevout : OutPoint
  fields : AssetFields
  signature : Option String

structure HttpResponse where
  status : Nat
  body : String

/-- Error values: a leaf message (from ensure or bail) or a context wrapper
(from failure context), keeping the wrapped cause. -/
inductive Err where
  | msg (s : String)
  | ctx (c : String) (e : Err)
deriving DecidableEq

/-- Environment of external collaborators: cryptographic primitives from the
bitcoin_hashes and elements crates, the pubkey and domain syntax checkers from
the missing util.rs, the blocking HTTP client, the hook subprocess runner and
the serde serializer for Asset. Each is an arbitrary pure function; the code
under src only composes them. -/
structure Env where
  sha256 : String → List Nat
  generateAssetEntropy : OutPoint → ContractHash → Nat
  assetIdFromEntropy : Nat → Nat
  assetIdToHex : Nat → String
  pubkeyOk : List Nat → Bool
  domainNameOk : String → Bool
  httpGet : String → Except Err HttpResponse
  runHook : String → String → String → Bool
  serializeAsset : Asset → String
  deserializeAsset : String → Except Err Asset

/-- Model of indexing a serde_json Value with a string key: Null when the value
is not an object or the key is absent. -/
def jsonIndex (j : Json) (key : String) : Json :=
  match j with
  | .obj entries => (entries.lookup key).getD .null
  | _ => .null

/-- Model of Value as_u64: defined exactly on nonnegative integers that fit in
64 bits. -/
def asU64 : Json → Option Nat
  | .num n => if 0 ≤ n ∧ n < 18446744073709551616 then some n.toNat else none
  | _ => none

/-- Model of serde deserialization of AssetFields from a contract Value
(AssetFields.from_contract, src/asset.rs lines 52 to 56): name is a required
string, ticker an optional string, precision a u8 defaulting to 0, entity an
externally tagged enum with the single variant named domain; unknown keys are
ignored. -/
def fieldsFromContract (contract : Json) : Except Err AssetFields := do
  let entries ← match contract with
    | .obj entries => Except.ok entries
    | _ => Except.error (Err.msg "contract is not an object")
  let name ← match entries.lookup "name" with
    | some (.str s) => Except.ok s
    | _ => Except.error (Err.msg "missing or invalid name field")
  let ticker ← match entries.lookup "ticker" with
    | none => Except.ok none
    | some .null => Except.ok none
    | some (.str s) => Except.ok (some s)
    | some _ => Except.error (Err.msg "invalid ticker field")
  let precision ← match entries.lookup "precision" with
    | none => Except.ok default_precision
    | some (.num n) =>
      if 0 ≤ n ∧ n ≤ 255 then Except.ok n.toNat
      else Except.error (Err.msg "precision out of u8 range")
    | some _ => Except.error (Err.msg "invalid precision field")
  let entity ← match entries.lookup "entity" with
    | some (.obj [(tag, .str d)]) =>
      if tag = "domain" then Except.ok (AssetEntity.DomainName d)
      else Except.error (Err.msg "unknown entity variant")
    | _ => Except.error (Err.msg "missing or invalid entity field")
  Except.ok (AssetFields.mk name ticker precision entity)

/-- The precision bound checked at src/asset.rs line 87. -/
def precisionOk (p : Nat) : Bool := p ≤ 8

/-- Character class of the RE_NAME regex: any ASCII character. -/
def allowedNameChar (c : Char) : Bool := c.toNat ≤ 127

/-- Language of RE_NAME, the anchored regex of 1 to 255 ASCII characters
(src/asset.rs line 20). -/
def nameOk (s : String) : Bool :=
  decide (1 ≤ s.data.length) && decide (s.data.length ≤ 255) && s.data.all allowedNameChar

/-- Character class of the RE_TICKER regex: letters, dot and hyphen. -/
def allowedTickerChar (c : Char) : Bool :=
  (decide (97 ≤ c.toNat) && decide (c.toNat ≤ 122)) ||
  (decide (65 ≤ c.toNat) && decide (c.toNat ≤ 90)) ||
  c = '.' || c = '-'

/-- Language of RE_TICKER, the anchored regex of 3 to 5 characters over
letters, dot and hyphen (src/asset.rs line 21). -/
def tickerOk (t : String) : Bool :=
  decide (3 ≤ t.data.length) && decide (t.data.length ≤ 5) && t.data.all allowedTickerChar

/-- The ticker check of src/asset.rs lines 90 to 92: only performed when a
ticker is present. -/
def tickerGate : Option String → Bool
  | none => true
  | some t => tickerOk t

/-- Model of Asset issuer_pubkey (src/asset.rs lines 126 to 132): reads the
issuer_pubkey string out of the contract, then hex decodes it; the hex failure
is wrapped with context, the missing-field failure is not. -/
def Asset.issuer_pubkey (a : Asset) : Except Err (List Nat) :=
  match jsonIndex a.contract "issuer_pubkey" with
  | .str s =>
    match hexDecode s with
    | some bytes => Except.ok bytes
    | none => Except.error (Err.ctx "invalid issuer_pubkey hex" (Err.msg "invalid hex string"))
  | _ => Except.error (Err.msg "missing issuer_pubkey")

/-- contract_json_hash (src/asset.rs lines 156 to 164): one single sha256 of
the canonical serialization, wrapped in the ContractHash newtype for the
reversed hex display, with no second hash application. -/
def contract_json_hash (E : Env) (contract : Json) : ContractHash :=
  ContractHash.mk (E.sha256 (jsonToString contract))

def Asset.contract_hash (E : Env) (a : Asset) : ContractHash :=
  contract_json_hash E a.contract

/-- verify_asset_commitment (src/asset.rs lines 191 to 206). -/
def verify_asset_commitment (E : Env) (a : Asset) : Except Err Unit :=
  let contractHash := Asset.contract_hash E a
  let entropy := E.generateAssetEntropy a.issuance_prevout contractHash
  let derivedId := E.assetIdFromEntropy entropy
  if a.asset_id = derivedId then Except.ok ()
  else Except.error (Err.msg "invalid asset commitment")

/-- verify_asset_fields (src/asset.rs lines 209 to 234): any present signature
is rejected outright; otherwise the fields must equal the ones re-parsed from
the contract. -/
def verify_asset_fields (a : Asset) : Except Err Unit :=
  match a.signature with
  | some _ => Except.error (Err.msg "updates are disabled")
  | none =>
    match fieldsFromContract a.contract with
    | Except.error e => Except.error e
    | Except.ok parsed =>
      if a.fields = parsed then Except.ok ()
      else Except.error (Err.msg "fields mismatch commitment")

/-- The domain of the single entity variant of the record. -/
def assetDomain (a : Asset) : String :=
  match a.fields.entity with
  | .DomainName d => d

/-- The exact body required by verify_domain_link (src/entity.rs lines 37
to 40). -/
def expectedBody (E : Env) (a : Asset) (domain : String) : String :=
  "Authorize linking the domain name " ++ domain ++
    " to the Liquid asset " ++ E.assetIdToHex a.asset_id

/-- The challenge URL (src/entity.rs lines 48 to 60, the release branch: the
hard-coded localhost URL exists only under the test and dev configurations,
which are compiled out here): https for ordinary domains, http for onion
ones. -/
def pageUrl (E : Env) (a : Asset) (domain : String) : String :=
  (if strEndsWith domain ".onion" then "http" else "https") ++
    "://" ++ domain ++ "/.well-known/liquid-asset-proof-" ++ E.assetIdToHex a.asset_id

/-- Statuses on which reqwest error_for_status fails: client and server error
classes. -/
def statusError (status : Nat) : Bool := decide (400 ≤ status) && decide (status ≤ 599)

/-- verify_domain_link (src/entity.rs lines 30 to 81): domain syntax check,
one GET of the challenge URL, status check, then the body compared after
trimming trailing whitespace. -/
def verify_domain_link (E : Env) (a : Asset) (domain : String) : Except Err Unit :=
  if E.domainNameOk domain then
    match E.httpGet (pageUrl E a domain) with
    | Except.error e => Except.error (Err.ctx ("failed fetching " ++ pageUrl E a domain) e)
    | Except.ok resp =>
      if statusError resp.status then Except.error (Err.msg "http status error")
      else if trimEnd resp.body = expectedBody E a domain then Except.ok ()
      else Except.error (Err.msg "verification page contents mismatch")
  else Except.error (Err.ctx "invalid domain name" (Err.msg "invalid domain name syntax"))

/-- verify_asset_link (src/entity.rs lines 24 to 28). -/
def verify_asset_link (E : Env) (a : Asset) : Except Err Unit :=
  match a.fields.entity with
  | .DomainName domain => verify_domain_link E a domain

/-- The chain-query collaborator is modelled by its observable behaviour: the
result of verify_asset_issuance_tx for a given record (chain.rs is an external
collaborator of this core). -/
def ChainQuery := Asset → Except Err Unit

/-- The optional on-chain stage of Asset verify (src/asset.rs lines 103
to 106): run the query when the collaborator is present, succeed silently when
it is absent. -/
def chainStage (chain : Option ChainQuery) (a : Asset) : Except Err Unit :=
  match chain with
  | none => Except.ok ()
  | some query => query a

/-- Asset verify (src/asset.rs lines 80 to 111), translated check for check in
source order: version marker, precision, name, ticker, issuer pubkey, domain
syntax, then the four context-wrapped stages (commitment, fields, optional
on-chain issuance, linked entity), each short-circuiting the rest. -/
def Asset.verify (E : Env) (a : Asset) (chain : Option ChainQuery) : Except Err Unit :=
  if asU64 (jsonIndex a.contract "version") = some 0 then
    if precisionOk a.fields.precision then
      if nameOk a.fields.name then
        if tickerGate a.fields.ticker then
          match a.issuer_pubkey with
          | Except.error e => Except.error e
          | Except.ok pk =>
            if E.pubkeyOk pk then
              if E.domainNameOk (assetDomain a) then
                match verify_asset_commitment E a with
                | Except.error e =>
                  Except.error (Err.ctx "failed verifying issuance commitment" e)
                | Except.ok _ =>
                  match verify_asset_fields a with
                  | Except.error e =>
                    Except.error (Err.ctx "failed verifying asset fields" e)
                  | Except.ok _ =>
                    match chainStage chain a with
                    | Except.error e =>
                      Except.error (Err.ctx "failed verifying on-chain issuance" e)
                    | Except.ok _ =>
                      match verify_asset_link E a with
                      | Except.error e =>
                        Except.error (Err.ctx "failed verifying linked entity" e)
                      | Except.ok _ => Except.ok ()
              else Except.error (Err.ctx "invalid domain name" (Err.msg "invalid domain name syntax"))
            else Except.error (Err.ctx "invalid issuer public key" (Err.msg "invalid public key"))
        else Except.error (Err.msg "invalid ticker")
      else Except.error (Err.msg "invalid name")
    else Except.error (Err.msg "precision out of range")
  else Except.error (Err.msg "unknown version")

/-- The preliminary inline checks of Asset verify that run before the first
context-wrapped stage, bundled as one boolean. -/
def prelimOk (E : Env) (a : Asset) : Bool :=
  (asU64 (jsonIndex a.contract "version") == some 0) &&
  precisionOk a.fields.precision &&
  nameOk a.fields.name &&
  tickerGate a.fields.ticker &&
  (match a.issuer_pubkey with
   | Except.ok pk => E.pubkeyOk pk
   | Except.error _ => false) &&
  E.domainNameOk (assetDomain a)

/-- The registry state (src/registry.rs lines 15 to 21). The write lock
serializes writers; the embedding is single threaded, so the lock itself has no
observable content here. -/
structure Registry where
  directory : String
  chain : Option ChainQuery
  hook_cmd : Option String

/-- The registry directory tree: the set of created subdirectories and the
files with their contents. -/
structure FS where
  dirs : List String
  files : List (String × String)

/-- Length of the asset id prefix used for sub-directory partitioning, in hex
characters (src/registry.rs line 13). -/
def DIR_PARTITION_LEN : Nat := 2

/-- The path computed by Registry load (src/registry.rs lines 38 to 40). -/
def Registry.loadPath (E : Env) (reg : Registry) (asset_id : Nat) : String :=
  let name := E.assetIdToHex asset_id ++ ".json"
  let subdir := reg.directory ++ "/" ++ strTake name DIR_PARTITION_LEN
  subdir ++ "/" ++ name

/-- Registry load (src/registry.rs lines 37 to 47): lock free; absent path
gives ok none, a present file is deserialized, and its failure propagates as an
error. -/
def Registry.load (E : Env) (reg : Registry) (fs : FS) (asset_id : Nat) :
    Except Err (Option Asset) :=
  match fs.files.lookup (Registry.loadPath E reg asset_id) with
  | none => Except.ok none
  | some contents =>
    match E.deserializeAsset contents with
    | Except.error e => Except.error e
    | Except.ok a => Except.ok (some a)

/-- The partition subdirectory computed by Registry write (src/registry.rs
line 55). -/
def Registry.writeSubdir (E : Env) (reg : Registry) (asset_id : Nat) : String :=
  reg.directory ++ "/" ++ strTake (E.assetIdToHex asset_id ++ ".json") DIR_PARTITION_LEN

/-- The target path computed by Registry write (src/registry.rs lines 54
to 56), duplicated in the source from the one in load. -/
def Registry.writePath (E : Env) (reg : Registry) (asset_id : Nat) : String :=
  Registry.writeSubdir E reg asset_id ++ "/" ++ (E.assetIdToHex asset_id ++ ".json")

/-- Registry exec_hook (src/registry.rs lines 72 to 86): nothing to do without
a configured command; otherwise the command runs with the asset id hex and the
record path, and a nonzero exit is the ensure failure. -/
def Registry.exec_hook (E : Env) (reg : Registry) (assetIdHex assetPath : String) :
    Except Err Unit :=
  match reg.hook_cmd with
  | none => Except.ok ()
  | some cmd =>
    if E.runHook cmd assetIdHex assetPath then Except.ok ()
    else Except.error (Err.msg "hook script failed")

/-- Create a directory if absent (the create_dir branch of write). -/
def fsAddDir (fs : FS) (d : String) : FS :=
  if fs.dirs.contains d then fs else FS.mk (d :: fs.dirs) fs.files

/-- Write a file, overwriting any previous contents at the path. -/
def fsWrite (fs : FS) (p contents : String) : FS :=
  FS.mk fs.dirs ((p, contents) :: fs.files.filter (fun q => q.1 != p))

/-- Registry write (src/registry.rs lines 49 to 70): verify under the lock,
then create the partition directory if needed, write the serialized record,
and finally run the hook, whose failure is context wrapped while the record
stays on disk. -/
def Registry.write (E : Env) (reg : Registry) (fs : FS) (a : Asset) :
    Except Err Unit × FS :=
  match Asset.verify E a reg.chain with
  | Except.error e => (Except.error e, fs)
  | Except.ok _ =>
    let subdir := Registry.writeSubdir E reg a.asset_id
    let p := Registry.writePath E reg a.asset_id
    let fs1 := fsAddDir fs subdir
    let fs2 := fsWrite fs1 p (E.serializeAsset a)
    match Registry.exec_hook E reg (E.assetIdToHex a.asset_id) p with
    | Except.error e => (Except.error (Err.ctx "hook script failed" e), fs2)
    | Except.ok _ => (Except.ok (), fs2)

/-- Equality of JSON documents as JSON values, independent of the original key
insertion order at every level: equality of canonical forms. -/
def jsonEquiv (c1 c2 : Json) : Prop := normJson c1 = normJson c2

/-- A concrete well-formed contract document. -/
def sampleContract : Json :=
  Json.obj
    [("entity", Json.obj [("domain", Json.str "example.com")]),
     ("issuer_pubkey", Json.str "00"),
     ("name", Json.str "Foo Coin"),
     ("version", Json.num 0)]

/-- A concrete record whose commitment and fields agree with sampleContract
under sampleEnv. -/
def sampleAsset : Asset :=
  Asset.mk 0 sampleContract (TxInput.mk 0 0) (OutPoint.mk 0 0)
    (AssetFields.mk "Foo Coin" none 0 (AssetEntity.DomainName "example.com")) none

/-- The record with a mismatched asset id. -/
def sampleAssetBadCommit : Asset :=
  Asset.mk 1 sampleContract (TxInput.mk 0 0) (OutPoint.mk 0 0)
    (AssetFields.mk "Foo Coin" none 0 (AssetEntity.DomainName "example.com")) none

/-- The record carrying a signature. -/
def sampleAssetSigned : Asset :=
  Asset.mk 0 sampleContract (TxInput.mk 0 0) (OutPoint.mk 0 0)
    (AssetFields.mk "Foo Coin" none 0 (AssetEntity.DomainName "example.com")) (some "sig")

/-- The domain-link body that sampleEnv serves for sampleAsset. -/
def sampleBody : String :=
  "Authorize linking the domain name example.com to the Liquid asset 00"

/-- A concrete environment: trivial crypto primitives, one-byte hex asset ids,
an HTTP server answering the correct body plus a trailing newline, a succeeding
hook, and a serde pair that round trips sampleAsset. -/
def sampleEnv : Env :=
  Env.mk (fun _ => []) (fun _ _ => 0) (fun n => n) (fun n => hexEncode [n % 256])
    (fun _ => true) (fun _ => true)
    (fun _ => Except.ok (HttpResponse.mk 200 (sampleBody ++ "\n")))
    (fun _ _ _ => true) (fun _ => "record") (fun _ => Except.ok sampleAsset)

/-- sampleEnv with a failing hook process. -/
def sampleEnvHookFail : Env :=
  Env.mk (fun _ => []) (fun _ _ => 0) (fun n => n) (fun n => hexEncode [n % 256])
    (fun _ => true) (fun _ => true)
    (fun _ => Except.ok (HttpResponse.mk 200 (sampleBody ++ "\n")))
    (fun _ _ _ => false) (fun _ => "record") (fun _ => Except.ok sampleAsset)

/-- sampleEnv whose HTTP server answers with one deviating character in the
asset id. -/
def sampleEnvBadBody : Env :=
  Env.mk (fun _ => []) (fun _ _ => 0) (fun n => n) (fun n => hexEncode [n % 256])
    (fun _ => true) (fun _ => true)
    (fun _ => Except.ok (HttpResponse.mk 200
      "Authorize linking the domain name example.com to the Liquid asset 01"))
    (fun _ _ _ => true) (fun _ => "record") (fun _ => Except.ok sampleAsset)

/-- sampleEnv whose deserializer always fails. -/
def sampleEnvBadParse : Env :=
  Env.mk (fun _ => []) (fun _ _ => 0) (fun n => n) (fun n => hexEncode [n % 256])
    (fun _ => true) (fun _ => true)
    (fun _ => Except.ok (HttpResponse.mk 200 (sampleBody ++ "\n")))
    (fun _ _ _ => true) (fun _ => "record")
    (fun _ => Except.error (Err.msg "parse error"))

/-- A registry with no chain collaborator and no hook. -/
def sampleRegistry : Registry := Registry.mk "registry" none none

/-- A registry with no chain collaborator and a configured hook command. -/
def sampleRegistryHook : Registry := Registry.mk "registry" none (some "notify")

def emptyFS : FS := FS.mk [] []

/-- A tree already holding a file at the partition path of asset id 0 under
sampleEnv. -/
def sampleFSWithFile : FS :=
  FS.mk ["registry/00"] [("registry/00/00.json", "garbage")]

/-- A chain collaborator whose on-chain confirmation always fails. -/
def failingChain : ChainQuery := fun _ => Except.error (Err.msg "issuance tx not found")

/-- sampleContract with its first two keys inserted in the opposite order. -/
def sampleContractSwapped : Json :=
  Json.obj
    [("issuer_pubkey", Json.str "00"),
     ("entity", Json.obj [("domain", Json.str "example.com")]),
     ("name", Json.str "Foo Coin"),
     ("version", Json.num 0)]

/-- C1: the commitment check accepts a record exactly when its asset id equals
the id derived from the issuance prevout and the contract hash; on mismatch it
fails with the terminal commitment error, and no outcome other than these two
is possible. -/
theorem c1_commitment_accepts_iff_derived_id (E : Env) (a : Asset) :
    (verify_asset_commitment E a = Except.ok () ↔
      a.asset_id = E.assetIdFromEntropy
        (E.generateAssetEntropy a.issuance_prevout (contract_json_hash E a.contract))) ∧
    (a.asset_id ≠ E.assetIdFromEntropy
        (E.generateAssetEntropy a.issuance_prevout (contract_json_hash E a.contract)) →
      verify_asset_commitment E a = Except.error (Err.msg "invalid asset commitment")) ∧
    (verify_asset_commitment E a = Except.ok () ∨
      verify_asset_commitment E a = Except.error (Err.msg "invalid asset commitment")) := by
  unfold verify_asset_commitment Asset.contract_hash
  by_cases h : a.asset_id = E.assetIdFromEntropy
      (E.generateAssetEntropy a.issuance_prevout (contract_json_hash E a.contract)) <;>
    simp [h]

/-- Witness for C1: the sample record with the derived id is accepted, and the
record with a different id fails with the commitment error. -/
theorem c1_commitment_accepts_iff_derived_id_witness :
    verify_asset_commitment sampleEnv sampleAsset = Except.ok () ∧
    verify_asset_commitment sampleEnv sampleAssetBadCommit =
      Except.error (Err.msg "invalid asset commitment") :=
  ⟨(c1_commitment_accepts_iff_derived_id sampleEnv sampleAsset).1.mpr rfl,
   (c1_commitment_accepts_iff_derived_id sampleEnv sampleAssetBadCommit).2.1 (by decide)⟩

/-- C4: a record with a present signature is rejected immediately with the
updates-are-disabled policy error, whatever its other fields; a record without
a signature passes field validation exactly when its fields equal the fields
re-parsed from its contract. -/
theorem c4_signature_policy_and_field_equality (a : Asset) :
    (∀ s, a.signature = some s →
      verify_asset_fields a = Except.error (Err.msg "updates are disabled")) ∧
    (a.signature = none →
      (verify_asset_fields a = Except.ok () ↔
        fieldsFromContract a.contract = Except.ok a.fields)) := by
  constructor
  · intro s hs
    unfold verify_asset_fields
    rw [hs]
  · intro hn
    unfold verify_asset_fields
    rw [hn]
    cases hp : fieldsFromContract a.contract with
    | error e => simp
    | ok parsed =>
      by_cases hf : a.fields = parsed
      · simp [hf]
      · simp [hf]
        exact fun h => hf h.symm

/-- Witness for C4: the signed sample record is rejected with the policy error
even though every other field is correct, and the unsigned sample record is
accepted because its fields re-parse from its contract. -/
theorem c4_signature_policy_and_field_equality_witness :
    verify_asset_fields sampleAssetSigned = Except.error (Err.msg "updates are disabled") ∧
    verify_asset_fields sampleAsset = Except.ok () :=
  ⟨(c4_signature_policy_and_field_equality sampleAssetSigned).1 "sig" rfl,
   (c4_signature_policy_and_field_equality sampleAsset).2 rfl |>.mpr rfl⟩

/-- C8: loading an asset id with no file at its partition path yields the
explicit ok-none result, not an error; loading an existing file whose
deserialization fails yields that error, which is a different value from the
ok-none result. -/
theorem c8_load_not_found_vs_parse_error (E : Env) (reg : Registry) (fs : FS) (asset_id : Nat) :
    (fs.files.lookup (Registry.loadPath E reg asset_id) = none →
      Registry.load E reg fs asset_id = Except.ok none) ∧
    (∀ s e, fs.files.lookup (Registry.loadPath E reg asset_id) = some s →
      E.deserializeAsset s = Except.error e →
      Registry.load E reg fs asset_id = Except.error e) ∧
    (∀ s a, fs.files.lookup (Registry.loadPath E reg asset_id) = some s →
      E.deserializeAsset s = Except.ok a →
      Registry.load E reg fs asset_id = Except.ok (some a)) ∧
    (∀ e, (Except.error e : Except Err (Option Asset)) ≠ Except.ok none) := by
  refine ⟨?_, ?_, ?_, ?_⟩
  · intro h
    unfold Registry.load
    rw [h]
  · intro s e hs hd
    unfold Registry.load
    rw [hs]
    simp [hd]
  · intro s a hs hd
    unfold Registry.load
    rw [hs]
    simp [hd]
  · intro e h
    exact Except.noConfusion h

/-- Witness for C8: a never-written id loads as ok none from the empty tree,
and an existing file that fails to deserialize loads as the parse error. -/
theorem c8_load_not_found_vs_parse_error_witness :
    Registry.load sampleEnv sampleRegistry emptyFS 0 = Except.ok none ∧
    Registry.load sampleEnvBadParse sampleRegistry sampleFSWithFile 0 =
      Except.error (Err.msg "parse error") :=
  ⟨(c8_load_not_found_vs_parse_error sampleEnv sampleRegistry emptyFS 0).1 rfl,
   (c8_load_not_found_vs_parse_error sampleEnvBadParse sampleRegistry sampleFSWithFile 0).2.1
     "garbage" (Err.msg "parse error") (by decide) rfl⟩

/-- C6: precision 0 and 8 are accepted and everything from 9 up is rejected,
while accepted precisions are never negative (the field is an unsigned byte);
a name is accepted exactly when it is 1 to 255 ASCII characters; a ticker is
accepted exactly when it is 3 to 5 characters over letters, dot and hyphen, so
length 2 and length 6 tickers are rejected, and an absent ticker passes. -/
theorem c6_field_validation_boundaries :
    precisionOk 0 = true ∧ precisionOk 8 = true ∧
    (∀ p : Nat, 9 ≤ p → precisionOk p = false) ∧
    (∀ p : Nat, precisionOk p = true → p ≤ 8 ∧ 0 ≤ (p : Int)) ∧
    (∀ s : String, nameOk s = true ↔
      1 ≤ s.data.length ∧ s.data.length ≤ 255 ∧ ∀ c ∈ s.data, c.toNat ≤ 127) ∧
    (∀ t : String, tickerOk t = true ↔
      3 ≤ t.data.length ∧ t.data.length ≤ 5 ∧
        ∀ c ∈ t.data, (65 ≤ c.toNat ∧ c.toNat ≤ 90) ∨ (97 ≤ c.toNat ∧ c.toNat ≤ 122) ∨
          c = '.' ∨ c = '-') ∧
    tickerGate none = true ∧
    (∀ t : String, t.data.length = 2 ∨ t.data.length = 6 → tickerGate (some t) = false) := by
  refine ⟨rfl, rfl, ?_, ?_, ?_, ?_, rfl, ?_⟩
  · intro p hp
    unfold precisionOk
    simp
    omega
  · intro p hp
    unfold precisionOk at hp
    simp at hp
    exact ⟨hp, Int.ofNat_nonneg p⟩
  · intro s
    unfold nameOk
    simp [List.all_eq_true, allowedNameChar]
    exact and_assoc
  · intro t
    unfold tickerOk
    simp [List.all_eq_true, allowedTickerChar]
    refine ⟨fun h => ⟨h.1.1, h.1.2, fun c hc => ?_⟩,
      fun h => ⟨⟨h.1, h.2.1⟩, fun c hc => ?_⟩⟩
    · have := h.2 c hc
      tauto
    · have := h.2.2 c hc
      tauto
  · intro t ht
    unfold tickerGate tickerOk
    rcases ht with h | h <;> simp [h]

/-- Witness for C6: precision 9 is rejected, a length 2 and a length 6 ticker
are rejected, and an otherwise valid name is accepted. -/
theorem c6_field_validation_boundaries_witness :
    precisionOk 9 = false ∧ tickerGate (some "AB") = false ∧
    tickerGate (some "ABCDEF") = false ∧ nameOk "Foo Coin" = true :=
  ⟨c6_field_validation_boundaries.2.2.1 9 (by decide),
   c6_field_validation_boundaries.2.2.2.2.2.2.2 "AB" (Or.inl (by decide)),
   c6_field_validation_boundaries.2.2.2.2.2.2.2 "ABCDEF" (Or.inr (by decide)),
   (c6_field_validation_boundaries.2.2.2.2.1 "Foo Coin").mpr (by decide)⟩

/-- C10: name validation enforces nothing beyond ASCII and length 1 to 255; in
particular strings made only of control characters such as newline, tab or NUL
are accepted. -/
theorem c10_name_accepts_control_characters :
    (∀ s : String, 1 ≤ s.data.length → s.data.length ≤ 255 →
      (∀ c ∈ s.data, c.toNat ≤ 127) → nameOk s = true) ∧
    nameOk "\n" = true ∧ nameOk "\t" = true ∧ nameOk "\x00" = true ∧
    nameOk "\x00\n\t" = true := by
  refine ⟨?_, by decide, by decide, by decide, by decide⟩
  intro s h1 h2 h3
  unfold nameOk
  simp [List.all_eq_true, allowedNameChar]
  exact ⟨⟨h1, h2⟩, h3⟩

/-- Witness for C10: a string of three control characters is accepted by name
validation. -/
theorem c10_name_accepts_control_characters_witness : nameOk "\x07\x08\x0b" = true :=
  c10_name_accepts_control_characters.1 "\x07\x08\x0b" (by decide) (by decide) (by decide)

/-- C5: with valid domain syntax and a successful fetch, the domain link
verifier accepts exactly when the body after trimming trailing whitespace is
the exact authorization sentence for this domain and asset id; any deviation
is the mismatch error, and a trailing newline never changes the trimmed
body. -/
theorem c5_domain_link_exact_body (E : Env) (a : Asset) (domain : String)
    (status : Nat) (body : String)
    (hdom : E.domainNameOk domain = true)
    (hget : E.httpGet (pageUrl E a domain) = Except.ok (HttpResponse.mk status body))
    (hst : statusError status = false) :
    (verify_domain_link E a domain = Except.ok () ↔
      trimEnd body = expectedBody E a domain) ∧
    (trimEnd body ≠ expectedBody E a domain →
      verify_domain_link E a domain =
        Except.error (Err.msg "verification page contents mismatch")) ∧
    (∀ s : String, trimEnd (s ++ "\n") = trimEnd s) := by
  have hnl : ∀ s : String, trimEnd (s ++ "\n") = trimEnd s := by
    intro s
    unfold trimEnd
    cases s with
    | mk data =>
      show String.mk (((data ++ ['\n']).reverse.dropWhile isWsChar).reverse) = _
      rw [List.reverse_append]
      rfl
  unfold verify_domain_link
  rw [hget]
  simp only [hdom, if_true]
  rw [hst]
  by_cases hb : trimEnd body = expectedBody E a domain <;> simp [hb, hnl]

/-- Witness for C5: the sample server answering the exact sentence with a
trailing newline is accepted, and the server whose answer deviates in one
character of the asset id is rejected. -/
theorem c5_domain_link_exact_body_witness :
    verify_domain_link sampleEnv sampleAsset "example.com" = Except.ok () ∧
    verify_domain_link sampleEnvBadBody sampleAsset "example.com" =
      Except.error (Err.msg "verification page contents mismatch") :=
  ⟨(c5_domain_link_exact_body sampleEnv sampleAsset "example.com" 200
      (sampleBody ++ "\n") rfl rfl rfl).1.mpr (by decide),
   (c5_domain_link_exact_body sampleEnvBadBody sampleAsset "example.com" 200
      "Authorize linking the domain name example.com to the Liquid asset 01"
      rfl rfl rfl).2.1 (by decide)⟩

/-- C3: once the inline preliminary checks pass, the pipeline runs its four
context-wrapped stages strictly in the order commitment, fields, on-chain
issuance (a stage that trivially passes when no chain collaborator is
present), linked entity; the first failing stage determines the outcome with
its own context, independently of everything after it. -/
theorem c3_pipeline_stage_order (E : Env) (a : Asset) (chain : Option ChainQuery)
    (hpre : prelimOk E a = true) :
    (∀ e, verify_asset_commitment E a = Except.error e →
      Asset.verify E a chain =
        Except.error (Err.ctx "failed verifying issuance commitment" e)) ∧
    (∀ e, verify_asset_commitment E a = Except.ok () →
      verify_asset_fields a = Except.error e →
      Asset.verify E a chain = Except.error (Err.ctx "failed verifying asset fields" e)) ∧
    (∀ e, verify_asset_commitment E a = Except.ok () →
      verify_asset_fields a = Except.ok () →
      chainStage chain a = Except.error e →
      Asset.verify E a chain = Except.error (Err.ctx "failed verifying on-chain issuance" e)) ∧
    (chain = none → chainStage chain a = Except.ok ()) ∧
    (∀ e, verify_asset_commitment E a = Except.ok () →
      verify_asset_fields a = Except.ok () →
      chainStage chain a = Except.ok () →
      verify_asset_link E a = Except.error e →
      Asset.verify E a chain = Except.error (Err.ctx "failed verifying linked entity" e)) ∧
    (verify_asset_commitment E a = Except.ok () →
      verify_asset_fields a = Except.ok () →
      chainStage chain a = Except.ok () →
      verify_asset_link E a = Except.ok () →
      Asset.verify E a chain = Except.ok ()) := by
  have hparts := hpre
  unfold prelimOk at hparts
  simp only [Bool.and_eq_true, beq_iff_eq] at hparts
  obtain ⟨⟨⟨⟨⟨hver, hprec⟩, hname⟩, htick⟩, hpk⟩, hdom⟩ := hparts
  cases hipk : a.issuer_pubkey with
  | error e0 =>
    rw [hipk] at hpk
    simp at hpk
  | ok pk =>
    rw [hipk] at hpk
    simp only [] at hpk
    have hv : Asset.verify E a chain =
        match verify_asset_commitment E a with
        | Except.error e => Except.error (Err.ctx "failed verifying issuance commitment" e)
        | Except.ok _ =>
          match verify_asset_fields a with
          | Except.error e => Except.error (Err.ctx "failed verifying asset fields" e)
          | Except.ok _ =>
            match chainStage chain a with
            | Except.error e => Except.error (Err.ctx "failed verifying on-chain issuance" e)
            | Except.ok _ =>
              match verify_asset_link E a with
              | Except.error e => Except.error (Err.ctx "failed verifying linked entity" e)
              | Except.ok _ => Except.ok () := by
      unfold Asset.verify
      rw [hipk]
      simp [hver, hprec, hname, htick, hpk, hdom]
    refine ⟨?_, ?_, ?_, ?_, ?_, ?_⟩
    · intro e hc
      rw [hv, hc]
    · intro e hc hf
      rw [hv, hc, hf]
    · intro e hc hf hch
      rw [hv, hc, hf, hch]
    · intro hnone
      rw [hnone]
      rfl
    · intro e hc hf hch hl
      rw [hv, hc, hf, hch, hl]
    · intro hc hf hch hl
      rw [hv, hc, hf, hch, hl]

/-- Witness for C3: the sample record passes all four stages; with a
mismatched id the pipeline stops at the commitment stage with its context; and
with a failing chain collaborator present it stops at the on-chain stage with
its context, never reaching the linked-entity stage. -/
theorem c3_pipeline_stage_order_witness :
    Asset.verify sampleEnv sampleAsset none = Except.ok () ∧
    Asset.verify sampleEnv sampleAssetBadCommit none =
      Except.error (Err.ctx "failed verifying issuance commitment"
        (Err.msg "invalid asset commitment")) ∧
    Asset.verify sampleEnv sampleAsset (some failingChain) =
      Except.error (Err.ctx "failed verifying on-chain issuance"
        (Err.msg "issuance tx not found")) :=
  ⟨(c3_pipeline_stage_order sampleEnv sampleAsset none rfl).2.2.2.2.2 rfl rfl rfl rfl,
   (c3_pipeline_stage_order sampleEnv sampleAssetBadCommit none rfl).1
     (Err.msg "invalid asset commitment") rfl,
   (c3_pipeline_stage_order sampleEnv sampleAsset (some failingChain) rfl).2.2.1
     (Err.msg "issuance tx not found") rfl rfl rfl⟩

/-- Writing a file makes its contents the ones found at its path. -/
theorem lookup_fsWrite (fs : FS) (p c : String) :
    (fsWrite fs p c).files.lookup p = some c := by
  unfold fsWrite
  simp [List.lookup]

/-- C2: a verification failure surfaces before anything is persisted, leaving
the directory tree untouched; a hook failure surfaces after persistence as the
hook-context error while the serialized record stays at its target path. -/
theorem c2_failures_before_persist_except_hook (E : Env) (reg : Registry) (fs : FS) (a : Asset) :
    (∀ e, Asset.verify E a reg.chain = Except.error e →
      Registry.write E reg fs a = (Except.error e, fs)) ∧
    (∀ cmd, Asset.verify E a reg.chain = Except.ok () →
      reg.hook_cmd = some cmd →
      E.runHook cmd (E.assetIdToHex a.asset_id) (Registry.writePath E reg a.asset_id) = false →
      (Registry.write E reg fs a).1 =
        Except.error (Err.ctx "hook script failed" (Err.msg "hook script failed")) ∧
      (Registry.write E reg fs a).2.files.lookup (Registry.writePath E reg a.asset_id) =
        some (E.serializeAsset a)) := by
  constructor
  · intro e he
    unfold Registry.write
    rw [he]
  · intro cmd hok hcmd hrun
    unfold Registry.write Registry.exec_hook
    rw [hok, hcmd]
    constructor
    · simp [hrun]
    · simp [hrun, lookup_fsWrite]

/-- Witness for C2: under the failing hook the sample write reports the hook
error while the record is on disk at its target path, and with a mismatched
commitment the write fails leaving the empty tree untouched. -/
theorem c2_failures_before_persist_except_hook_witness :
    (Registry.write sampleEnvHookFail sampleRegistryHook emptyFS sampleAsset).1 =
      Except.error (Err.ctx "hook script failed" (Err.msg "hook script failed")) ∧
    (Registry.write sampleEnvHookFail sampleRegistryHook emptyFS sampleAsset).2.files.lookup
      (Registry.writePath sampleEnvHookFail sampleRegistryHook 0) = some "record" ∧
    Registry.write sampleEnv sampleRegistry emptyFS sampleAssetBadCommit =
      (Except.error (Err.ctx "failed verifying issuance commitment"
        (Err.msg "invalid asset commitment")), emptyFS) :=
  have h2 := (c2_failures_before_persist_except_hook sampleEnvHookFail sampleRegistryHook
    emptyFS sampleAsset).2 "notify" rfl rfl rfl
  ⟨h2.1, h2.2,
   (c2_failures_before_persist_except_hook sampleEnv sampleRegistry emptyFS
     sampleAssetBadCommit).1 _ rfl⟩

/-- C9: load and write compute the same partition path for every asset id, and
a record accepted by write is returned unchanged by a subsequent load of its
asset id, given that deserialization inverts serialization. -/
theorem c9_write_then_load_round_trip (E : Env) (reg : Registry) (fs : FS) (a : Asset)
    (hrt : E.deserializeAsset (E.serializeAsset a) = Except.ok a)
    (hok : Asset.verify E a reg.chain = Except.ok ()) :
    (∀ asset_id : Nat, Registry.loadPath E reg asset_id = Registry.writePath E reg asset_id) ∧
    Registry.load E reg (Registry.write E reg fs a).2 a.asset_id = Except.ok (some a) := by
  have hpath : ∀ asset_id : Nat,
      Registry.loadPath E reg asset_id = Registry.writePath E reg asset_id := by
    intro asset_id
    unfold Registry.loadPath Registry.writePath Registry.writeSubdir
    rfl
  refine ⟨hpath, ?_⟩
  unfold Registry.load Registry.write
  rw [hok, hpath]
  cases hh : Registry.exec_hook E reg (E.assetIdToHex a.asset_id)
      (Registry.writePath E reg a.asset_id) with
  | error e => simp [hh, lookup_fsWrite, hrt]
  | ok u => simp [hh, lookup_fsWrite, hrt]

/-- Witness for C9: the sample record written into the empty tree is loaded
back equal to itself. -/
theorem c9_write_then_load_round_trip_witness :
    Registry.load sampleEnv sampleRegistry
      (Registry.write sampleEnv sampleRegistry emptyFS sampleAsset).2 0 =
      Except.ok (some sampleAsset) :=
  (c9_write_then_load_round_trip sampleEnv sampleRegistry emptyFS sampleAsset rfl rfl).2

/-- Normalizing object entries maps normalization over the values and keeps
keys and order. -/
theorem normEntries_eq_map (l : List (String × Json)) :
    normEntries l = l.map (fun p => (p.1, normJson p.2)) := by
  induction l with
  | nil => rfl
  | cons p rest ih =>
    cases p with
    | mk k v => simp [normEntries, ih]

/-- Sorting object entries by key is invariant under permutation of the
entries as long as the keys are distinct. -/
theorem sortEntries_perm_congr (l1 l2 : List (String × Json))
    (hnd : (l1.map Prod.fst).Nodup) (hp : l1.Perm l2) :
    sortEntries l1 = sortEntries l2 := by
  have hnd1 : l1.Pairwise (fun a b => a.1 ≠ b.1) := List.pairwise_map.mp hnd
  have p1 : (sortEntries l1).Perm l1 := List.perm_insertionSort keyLe l1
  have p2 : (sortEntries l2).Perm l2 := List.perm_insertionSort keyLe l2
  have p : (sortEntries l1).Perm (sortEntries l2) := p1.trans (hp.trans p2.symm)
  have hnd1s : (sortEntries l1).Pairwise (fun a b => a.1 ≠ b.1) :=
    (p1.pairwise_iff fun h => Ne.symm h).mpr hnd1
  have hnd2s : (sortEntries l2).Pairwise (fun a b => a.1 ≠ b.1) :=
    (p2.pairwise_iff fun h => Ne.symm h).mpr ((hp.pairwise_iff fun h => Ne.symm h).mp hnd1)
  have s1 : List.Sorted keyLe (sortEntries l1) := List.sorted_insertionSort keyLe l1
  have s2 : List.Sorted keyLe (sortEntries l2) := List.sorted_insertionSort keyLe l2
  have t1 : List.Sorted keyLt (sortEntries l1) :=
    (List.Pairwise.and s1 hnd1s).imp (fun h => lt_of_le_of_ne h.1 h.2)
  have t2 : List.Sorted keyLt (sortEntries l2) :=
    (List.Pairwise.and s2 hnd2s).imp (fun h => lt_of_le_of_ne h.1 h.2)
  exact List.eq_of_perm_of_sorted p t1 t2

/-- C7: the contract hash depends only on the document as a JSON value, not on
the original key insertion order (stated both for canonical-form equality and
for an arbitrary permutation of distinct-keyed top-level entries), and it is a
single sha256 of the key-sorted canonical serialization wrapped in the
reversed-hex content-id representation of the host chain. -/
theorem c7_contract_hash_canonicalization :
    (∀ (E : Env) (c1 c2 : Json), jsonEquiv c1 c2 →
      contract_json_hash E c1 = contract_json_hash E c2) ∧
    (∀ (E : Env) (l1 l2 : List (String × Json)),
      (l1.map Prod.fst).Nodup → l1.Perm l2 →
      contract_json_hash E (Json.obj l1) = contract_json_hash E (Json.obj l2)) ∧
    (∀ (E : Env) (c : Json),
      contract_json_hash E c = ContractHash.mk (E.sha256 (jsonToString c))) ∧
    (∀ (E : Env) (c : Json),
      (contract_json_hash E c).to_hex = hexEncode (E.sha256 (jsonToString c)).reverse) := by
  refine ⟨?_, ?_, fun E c => rfl, fun E c => rfl⟩
  · intro E c1 c2 h
    unfold jsonEquiv at h
    unfold contract_json_hash jsonToString
    rw [h]
  · intro E l1 l2 hnd hp
    have hkeys : ((normEntries l1).map Prod.fst).Nodup := by
      rw [normEntries_eq_map, List.map_map]
      have hcomp : (Prod.fst ∘ fun p : String × Json => (p.1, normJson p.2)) = Prod.fst :=
        funext fun p => rfl
      rw [hcomp]
      exact hnd
    have hperm : (normEntries l1).Perm (normEntries l2) := by
      rw [normEntries_eq_map, normEntries_eq_map]
      exact hp.map _
    have hsort := sortEntries_perm_congr _ _ hkeys hperm
    unfold contract_json_hash jsonToString
    simp [normJson, hsort]

/-- Witness for C7: the sample contract and the same contract with its first
two keys inserted in the opposite order hash identically. -/
theorem c7_contract_hash_canonicalization_witness :
    contract_json_hash sampleEnv sampleContract =
      contract_json_hash sampleEnv sampleContractSwapped := by
  have h := c7_contract_hash_canonicalization.2.1 sampleEnv
    [("entity", Json.obj [("domain", Json.str "example.com")]),
     ("issuer_pubkey", Json.str "00"),
     ("name", Json.str "Foo Coin"),
     ("version", Json.num 0)]
    [("issuer_pubkey", Json.str "00"),
     ("entity", Json.obj [("domain", Json.str "example.com")]),
     ("name", Json.str "Foo Coin"),
     ("version", Json.num 0)]
    (by decide) (List.Perm.swap _ _ _)
  exact h

end AssetRegistry
